import Mathlib

/-!
Shallow embedding of `src/tcp/tcp_packet.go` (package `tcp` of goreplay).

Machine integers are modelled as `Nat` with explicit reductions `% 2^8` and
`% 2^16` exactly where the Go types (`uint8`, `uint16`) force a wraparound.
Byte strings are `List Nat` (each entry a byte value). A Go operation that
can panic (nil type assertion, out-of-range index) is modelled with `Option`,
`none` standing for the panic.
-/

namespace GoTcp

/-- Model of `*layers.IPv4`: the fields the package reads.
`IHL` is the `uint8` header-length-in-32-bit-words field, `Length` the
`uint16` total-length field. -/
structure IPv4Layer where
  SrcIP : List Nat
  DstIP : List Nat
  IHL : Nat
  Length : Nat
  deriving Repr, DecidableEq

/-- Model of `*layers.IPv6`: the fields the package reads.
`Length` is the `uint16` payload-length field. -/
structure IPv6Layer where
  SrcIP : List Nat
  DstIP : List Nat
  Length : Nat
  deriving Repr, DecidableEq

/-- Dynamic shape of a `gopacket.NetworkLayer` interface value: the two
shapes the package type-asserts on, plus any other shape. -/
inductive NetworkLayer where
  | ipv4 (l : IPv4Layer)
  | ipv6 (l : IPv6Layer)
  | other
  deriving Repr, DecidableEq

/-- Model of `layers.TCPOption`: kind byte, declared length byte, raw data. -/
structure TCPOption where
  OptionType : Nat
  OptionLength : Nat
  OptionData : List Nat
  deriving Repr, DecidableEq

/-- `layers.TCPOptionKindMSS = 2`. -/
def TCPOptionKindMSS : Nat := 2

/-- `layers.TCPOptionKindWindowScale = 3`. -/
def TCPOptionKindWindowScale : Nat := 3

/-- Model of `*layers.TCP`: the fields the package reads. `DataOffset` is the
`uint8` header length reported by the decoder (in 32-bit words before
`ParsePacket` rescales it), `Payload` the TCP payload bytes. -/
structure TCPLayer where
  SrcPort : Nat
  DstPort : Nat
  Seq : Nat
  Ack : Nat
  DataOffset : Nat
  Window : Nat
  FIN : Bool
  SYN : Bool
  RST : Bool
  PSH : Bool
  ACK : Bool
  URG : Bool
  Options : List TCPOption
  Payload : List Nat
  deriving Repr, DecidableEq

/-- Dynamic shape of a `gopacket.TransportLayer` interface value. -/
inductive TransportLayer where
  | tcp (t : TCPLayer)
  | other
  deriving Repr, DecidableEq

/-- Model of the error layer a `gopacket.Packet` may carry:
whether its dynamic type is `*gopacket.DecodeFailure`, and the error value
its `Error()` method returns (modelled as a message string). -/
structure ErrLayer where
  isDecodeFailure : Bool
  msg : String
  deriving Repr, DecidableEq

/-- Model of the input `gopacket.Packet`: its layer accessors and metadata.
`timestamp = 0` models the zero `time.Time{}`. -/
structure GoPacket where
  errorLayer : Option ErrLayer
  timestamp : Nat
  linkLayer : Option Unit
  networkLayer : Option NetworkLayer
  transportLayer : Option TransportLayer
  applicationLayer : Option (List Nat)
  deriving Repr, DecidableEq

/-- The `Packet` struct of the package. `NetworkLayer`/`TCP` are `none` when
the corresponding Go interface/pointer field is nil. `Lost` is the `uint16`
field, `Timestamp` the capture time (0 = zero time). -/
structure Packet where
  LinkLayer : Option Unit
  NetworkLayer : Option GoTcp.NetworkLayer
  TCP : Option TCPLayer
  DataLayer : Option (List Nat)
  Lost : Nat
  Timestamp : Nat
  deriving Repr, DecidableEq

/-- `Version`: `if _, ok := pckt.NetworkLayer.(*layers.IPv4); ok { return 4 }; return 6`.
A nil or non-IPv4 network layer falls through to 6. -/
def Packet.Version (p : Packet) : Nat :=
  match p.NetworkLayer with
  | some (NetworkLayer.ipv4 _) => 4
  | _ => 6

/-- `IHL`: for IPv4 `l.IHL * 4` in `uint8` arithmetic; otherwise the constant 40. -/
def Packet.IHL (p : Packet) : Nat :=
  match p.NetworkLayer with
  | some (NetworkLayer.ipv4 l) => l.IHL % 256 * 4 % 256
  | _ => 40

/-- `Length`: the declared IP length field, dispatched on the layer shape.
The Go method type-asserts `*layers.IPv6` in its fallthrough branch, so a
nil or other-shaped network layer panics there: modelled as `none`. -/
def Packet.Length (p : Packet) : Option Nat :=
  match p.NetworkLayer with
  | some (NetworkLayer.ipv4 l) => some (l.Length % 65536)
  | some (NetworkLayer.ipv6 l) => some (l.Length % 65536)
  | _ => none

/-- Declared IP length of a resolved network layer; agrees with
`Packet.Length` on records whose network layer is set to `nl`. -/
def nlLength (nl : NetworkLayer) : Nat :=
  match nl with
  | NetworkLayer.ipv4 l => l.Length % 65536
  | NetworkLayer.ipv6 l => l.Length % 65536
  | NetworkLayer.other => 0

/-- The two type assertions of the network-layer classification in
`ParsePacket` (lines 61-67): keep an `*layers.IPv4` or `*layers.IPv6`
value, reject everything else. -/
def classifyNet : Option NetworkLayer → Option NetworkLayer
  | some (NetworkLayer.ipv4 l) => some (NetworkLayer.ipv4 l)
  | some (NetworkLayer.ipv6 l) => some (NetworkLayer.ipv6 l)
  | _ => none

/-- The transport-layer type assertion of `ParsePacket` (line 70). -/
def classifyTcp : Option TransportLayer → Option TCPLayer
  | some (TransportLayer.tcp t) => some t
  | _ => none

/-- The body of `ParsePacket` up to the deferred error check: timestamp
default, link layer, layer classification with early returns, the
`DataOffset *= 4` rescale (uint8), and the `Lost` computation (uint16
subtraction). `now` stands for `time.Now()`. -/
def parseBody (now : Nat) (packet : GoPacket) : Packet :=
  let ts := if packet.timestamp = 0 then now else packet.timestamp
  let p0 : Packet :=
    { LinkLayer := packet.linkLayer, NetworkLayer := none, TCP := none,
      DataLayer := none, Lost := 0, Timestamp := ts }
  match classifyNet packet.networkLayer with
  | none => p0
  | some nl =>
    let p1 := { p0 with NetworkLayer := some nl }
    match classifyTcp packet.transportLayer with
    | none => p1
    | some t0 =>
      let t := { t0 with DataOffset := t0.DataOffset % 256 * 4 % 256 }
      let p2 := { p1 with TCP := some t, DataLayer := packet.applicationLayer }
      let headerSize := t.DataOffset + p2.IHL
      let headerSize := if p2.Version = 6 then t.DataOffset else headerSize
      let lost :=
        (nlLength nl + 65536 - (headerSize + t.Payload.length) % 65536) % 65536
      { p2 with Lost := lost }

/-- The deferred closure of `ParsePacket` (lines 39-48): if the packet has an
error layer, set `err` from its `Error()` method (the same value on both the
`*gopacket.DecodeFailure` branch and the generic branch); otherwise leave
`err` nil. -/
def deferredErr (packet : GoPacket) : Option String :=
  match packet.errorLayer with
  | some e => some e.msg
  | none => none

/-- `ParsePacket`: runs the body, then (because the error check is a `defer`
executed at return) attaches the error derived from the error layer. The
record built by the body is returned in every case. -/
def ParsePacket (now : Nat) (packet : GoPacket) : Packet × Option String :=
  (parseBody now packet, deferredErr packet)

/-- One iteration of the option loop in `SYNOptions` (lines 146-156).
`binary.BigEndian.Uint16(v.OptionData)` panics when the data has fewer than
2 bytes, and `v.OptionData[0]` panics when `OptionLength > 0` but the data
is empty; both panics are modelled as `none`, which then absorbs the rest
of the scan. `1 << n` is computed at type `uint16`. -/
def synStep (acc : Option (Nat × Nat)) (v : TCPOption) : Option (Nat × Nat) :=
  match acc with
  | none => none
  | some (mss, windowscale) =>
    if v.OptionType = TCPOptionKindMSS then
      match v.OptionData with
      | b0 :: b1 :: _ => some (b0 % 256 * 256 + b1 % 256, windowscale)
      | _ => none
    else if v.OptionType = TCPOptionKindWindowScale then
      if v.OptionLength % 256 > 0 then
        match v.OptionData with
        | b :: _ => some (mss, 1 <<< (b % 256) % 65536)
        | [] => none
      else some (mss, windowscale)
    else some (mss, windowscale)

/-- `SYNOptions` on the TCP layer carried by a record: zero results unless
the SYN flag is set, otherwise a single left-to-right scan of the option
list starting from `(0, 0)`. -/
def TCPLayer.SYNOptions (t : TCPLayer) : Option (Nat × Nat) :=
  if !t.SYN then some (0, 0)
  else t.Options.foldl synStep (some (0, 0))

/-- `SYNOptions` on a record: reads the promoted `pckt.SYN`/`pckt.Options`
fields, so a nil `TCP` pointer panics (`none`). -/
def Packet.SYNOptions (p : Packet) : Option (Nat × Nat) :=
  p.TCP.bind TCPLayer.SYNOptions

/-- `Flag` on the TCP layer carried by a record: append `"XXX, "` for each
set flag in order FIN, SYN, RST, PSH, ACK, URG, then slice away the final
two bytes when anything was appended (`flag[:len(flag)-2]`; the string is
pure ASCII so Go byte indices coincide with character indices, and the Go
byte slice is modelled as a take on the character list). -/
def TCPLayer.Flag (t : TCPLayer) : String :=
  let flag := ""
  let flag := if t.FIN then flag ++ "FIN, " else flag
  let flag := if t.SYN then flag ++ "SYN, " else flag
  let flag := if t.RST then flag ++ "RST, " else flag
  let flag := if t.PSH then flag ++ "PSH, " else flag
  let flag := if t.ACK then flag ++ "ACK, " else flag
  let flag := if t.URG then flag ++ "URG, " else flag
  if flag.data.length ≠ 0 then String.mk (flag.data.take (flag.data.length - 2)) else flag

/-- `Flag` on a record: promoted through the `TCP` pointer (nil panics). -/
def Packet.Flag (p : Packet) : Option String :=
  p.TCP.map TCPLayer.Flag

/-! Derived and spec-side definitions used to state the claims. -/

/-- Header size of an accepted frame as `ParsePacket` computes it, as a
function of the resolved network layer and the rescaled (byte-valued)
data offset: `DataOffset + IHL()` for IPv4, `DataOffset` alone when
`Version() == 6`. -/
def headerSizeVal (nl : NetworkLayer) (dOff : Nat) : Nat :=
  match nl with
  | NetworkLayer.ipv4 l => dOff + l.IHL % 256 * 4 % 256
  | _ => dOff

/-- Header size exactly as the spec words it: `data_offset` plus the IP
header length in bytes for IPv4, `data_offset` alone for IPv6. Stated from
the spec, for comparison against the code path. -/
def specHeaderSize (nl : NetworkLayer) (dataOffsetBytes : Nat) : Nat :=
  match nl with
  | NetworkLayer.ipv4 l => dataOffsetBytes + l.IHL * 4
  | _ => dataOffsetBytes

/-- The declared IP length field of a resolved network layer, as the spec
words it (total length for IPv4, payload length for IPv6). -/
def specDeclaredLength : NetworkLayer → Nat
  | NetworkLayer.ipv4 l => l.Length
  | NetworkLayer.ipv6 l => l.Length
  | NetworkLayer.other => 0

/-- Decoder well-formedness of a resolved network layer: the IPv4 `IHL`
field comes from a 4-bit wire field and `Length` from a 16-bit one. -/
def nlWF : NetworkLayer → Prop
  | NetworkLayer.ipv4 l => l.IHL < 16 ∧ l.Length < 65536
  | NetworkLayer.ipv6 l => l.Length < 65536
  | NetworkLayer.other => False

/-- Spec-side list of the names of the set flags, in the fixed order
FIN, SYN, RST, PSH, ACK, URG. -/
def specFlagList (t : TCPLayer) : List String :=
  (if t.FIN then ["FIN"] else []) ++ (if t.SYN then ["SYN"] else []) ++
  (if t.RST then ["RST"] else []) ++ (if t.PSH then ["PSH"] else []) ++
  (if t.ACK then ["ACK"] else []) ++ (if t.URG then ["URG"] else [])

/-- Big-endian 16-bit interpretation of the first two bytes of an option
data field (the value `binary.BigEndian.Uint16` returns when it does not
panic). -/
def be16 : List Nat → Nat
  | b0 :: b1 :: _ => b0 % 256 * 256 + b1 % 256
  | _ => 0

/-- Value of the last option of a list under `f`, default `d` on the empty
list: the accumulator shape of a last-wins scan. -/
def lastD (f : TCPOption → Nat) : List TCPOption → Nat → Nat
  | [], d => d
  | v :: l, _ => lastD f l (f v)

/-- Is this an MSS option (spec-side filter). -/
def isMSSOpt (v : TCPOption) : Bool :=
  v.OptionType == TCPOptionKindMSS

/-- Is this a Window-Scale option with nonzero declared length (spec-side
filter; a zero declared length is ignored as malformed). -/
def isWSOpt (v : TCPOption) : Bool :=
  v.OptionType == TCPOptionKindWindowScale && v.OptionLength % 256 != 0

/-- The window-scale value the code derives from a Window-Scale option:
two to the power of its first data byte, at type `uint16`. -/
def wsVal (v : TCPOption) : Nat :=
  2 ^ (v.OptionData.headD 0 % 256) % 65536

/-- The MSS value the code derives from an MSS option. -/
def mssVal (v : TCPOption) : Nat :=
  be16 v.OptionData

/-- Spec-side MSS result: the big-endian 16-bit interpretation of the data
of the last MSS option of the list, 0 when there is none. -/
def specLastMSS (opts : List TCPOption) : Nat :=
  lastD mssVal (opts.filter isMSSOpt) 0

/-- Spec-side window-scale result: two to the power of the single data byte
of the last Window-Scale option with nonzero declared length, reduced at
the 16-bit width of the stored field; 0 when there is none. -/
def specLastWS (opts : List TCPOption) : Nat :=
  lastD wsVal (opts.filter isWSOpt) 0

/-- Well-formedness of an option list for the scan: every MSS option
carries at least the 2 data bytes `binary.BigEndian.Uint16` reads, and
every Window-Scale option with nonzero declared length carries the data
byte the code indexes. -/
def optionsWF (opts : List TCPOption) : Prop :=
  ∀ v ∈ opts,
    (v.OptionType = TCPOptionKindMSS → 2 ≤ v.OptionData.length) ∧
    (v.OptionType = TCPOptionKindWindowScale → v.OptionLength % 256 ≠ 0 →
      v.OptionData ≠ [])

instance (opts : List TCPOption) : Decidable (optionsWF opts) := by
  unfold optionsWF
  exact List.decidableBAll _ opts

/-! Concrete frames and layers used as witnesses and counterexamples. -/

/-- A TCP layer with SYN and ACK set, data offset 5 words, 15 payload
bytes and no options. -/
def exTcp : TCPLayer :=
  { SrcPort := 1000, DstPort := 80, Seq := 1, Ack := 0, DataOffset := 5,
    Window := 100, FIN := false, SYN := true, RST := false, PSH := false,
    ACK := true, URG := false, Options := [], Payload := List.replicate 15 0 }

/-- The IPv4 frame of the spec example: declared total length 60, IHL 5,
TCP data offset 5 words, 15 payload bytes. -/
def exFrame : GoPacket :=
  { errorLayer := none, timestamp := 7, linkLayer := some (),
    networkLayer := some (NetworkLayer.ipv4
      { SrcIP := [192, 168, 0, 1], DstIP := [10, 0, 0, 1], IHL := 5, Length := 60 }),
    transportLayer := some (TransportLayer.tcp exTcp),
    applicationLayer := some (List.replicate 15 0) }

/-- An IPv4 frame whose declared total length 10 is smaller than the
55 bytes of observed headers plus payload. -/
def underflowFrame : GoPacket :=
  { exFrame with
    networkLayer := some (NetworkLayer.ipv4
      { SrcIP := [192, 168, 0, 1], DstIP := [10, 0, 0, 1], IHL := 5, Length := 10 }) }

/-- An IPv4 frame whose transport layer is present but not TCP. -/
def udpFrame : GoPacket :=
  { exFrame with transportLayer := some TransportLayer.other }

/-- A frame carrying a decode-failure error layer together with fully
resolvable IPv4 and TCP layers. -/
def errorFrame : GoPacket :=
  { exFrame with errorLayer := some { isDecodeFailure := true, msg := "decode failure" } }

/-- A SYN segment whose option list carries an MSS option with bytes
`0x05 0xB4` and a Window-Scale option with data byte 7. -/
def exSynTcp : TCPLayer :=
  { exTcp with Options := [{ OptionType := 2, OptionLength := 4, OptionData := [0x05, 0xB4] },
                           { OptionType := 3, OptionLength := 3, OptionData := [7] }] }

/-- A SYN segment whose only option is a Window-Scale option with data
byte 16. -/
def ws16Tcp : TCPLayer :=
  { exTcp with Options := [{ OptionType := 3, OptionLength := 3, OptionData := [16] }] }

/-- A SYN segment whose only option is an MSS option with declared length
2 and no data bytes (as the decoder yields for wire bytes `02 02`). -/
def shortMssTcp : TCPLayer :=
  { exTcp with Options := [{ OptionType := 2, OptionLength := 2, OptionData := [] }] }

/-- A non-SYN segment carrying MSS and Window-Scale options. -/
def nonSynTcp : TCPLayer :=
  { exSynTcp with SYN := false }

/-- A record as built by `ParsePacket` from `exFrame` (used to exercise the
accessors that read through the `TCP` pointer). -/
def exRecord : Packet :=
  (ParsePacket 1 exFrame).1

/-- A record holding a given TCP layer (accessor methods only read the
flag bits and option list, so the other fields are immaterial). -/
def recordWith (t : TCPLayer) : Packet :=
  { LinkLayer := none, NetworkLayer := none, TCP := some t,
    DataLayer := none, Lost := 0, Timestamp := 0 }

/-! Helper lemmas. -/

/-- The network-layer classification never yields the `other` shape. -/
lemma classifyNet_not_other (x : Option NetworkLayer) :
    classifyNet x ≠ some NetworkLayer.other := by
  cases x with
  | none => simp [classifyNet]
  | some nl => cases nl <;> simp [classifyNet]

/-- Shape of the record `ParsePacket` builds from a frame whose network
layer resolves to `nl` and whose transport layer resolves to the TCP layer
`t`: all fields written out, with `Lost` as the uint16 subtraction of
header size plus payload length from the declared length. -/
lemma parseBody_accept (now : Nat) (packet : GoPacket) (nl : NetworkLayer) (t : TCPLayer)
    (hn : classifyNet packet.networkLayer = some nl)
    (ht : classifyTcp packet.transportLayer = some t) :
    parseBody now packet =
      { LinkLayer := packet.linkLayer,
        NetworkLayer := some nl,
        TCP := some { t with DataOffset := t.DataOffset % 256 * 4 % 256 },
        DataLayer := packet.applicationLayer,
        Lost := (nlLength nl + 65536 -
          (headerSizeVal nl (t.DataOffset % 256 * 4 % 256) + t.Payload.length) % 65536) % 65536,
        Timestamp := if packet.timestamp = 0 then now else packet.timestamp } := by
  unfold parseBody
  rw [hn, ht]
  cases nl with
  | ipv4 l => simp [Packet.IHL, Packet.Version, headerSizeVal]
  | ipv6 l => simp [Packet.IHL, Packet.Version, headerSizeVal]
  | other => exact absurd hn (classifyNet_not_other _)

/-! Claim theorems. -/

/-- C1: for every successfully parsed TCP-over-IP packet (with the decoder
ranges of its fields, and when the declared length covers headers plus
payload so that the subtraction does not underflow), `ParsePacket` stores
in `Lost` the declared IP length minus header size plus observed payload
length, where the header size is the byte-valued data offset plus the IP
header length in bytes for IPv4 and the data offset alone for IPv6. -/
theorem lost_is_declared_minus_header_and_payload
    (now : Nat) (packet : GoPacket) (nl : NetworkLayer) (t : TCPLayer)
    (hn : classifyNet packet.networkLayer = some nl)
    (ht : classifyTcp packet.transportLayer = some t)
    (hd : t.DataOffset < 16) (hwf : nlWF nl)
    (hle : specHeaderSize nl (4 * t.DataOffset) + t.Payload.length ≤ specDeclaredLength nl) :
    (ParsePacket now packet).1.Lost =
      specDeclaredLength nl - (specHeaderSize nl (4 * t.DataOffset) + t.Payload.length) := by
  show (parseBody now packet).Lost = _
  rw [parseBody_accept now packet nl t hn ht]
  cases nl with
  | ipv4 l =>
    obtain ⟨h1, h2⟩ := hwf
    simp only [nlLength, headerSizeVal, specHeaderSize, specDeclaredLength] at hle ⊢
    omega
  | ipv6 l =>
    simp only [nlLength, headerSizeVal, specHeaderSize, specDeclaredLength, nlWF] at hle hwf ⊢
    omega
  | other => exact absurd hn (classifyNet_not_other _)

/-- C1 witness: the spec frame (IPv4 total length 60, IHL 5, data offset
5 words, 15 payload bytes) yields `Lost = 5`. -/
theorem lost_is_declared_minus_header_and_payload_witness :
    (ParsePacket 1 exFrame).1.Lost = 5 := by
  have h := lost_is_declared_minus_header_and_payload 1 exFrame
    (NetworkLayer.ipv4
      { SrcIP := [192, 168, 0, 1], DstIP := [10, 0, 0, 1], IHL := 5, Length := 60 })
    exTcp rfl rfl (by decide) ⟨by decide, by decide⟩ (by decide)
  rw [h]
  rfl

/-- C2 counterexample: on an IPv4 frame with declared length 10 but 55
bytes of observed headers plus payload, the uint16 subtraction wraps: the
code stores `Lost = 65491` with no trace, where the true signed difference
is `-45`. -/
theorem lost_wraps_on_underflow_counterexample :
    (10 : Nat) < 20 + 20 + 15 ∧
    (ParsePacket 1 underflowFrame).1.Lost = 65491 ∧
    (10 : Int) - (20 + 20 + 15) = -45 := by
  refine ⟨by decide, ?_, by decide⟩
  rfl

/-- C2 amended: the subtraction defining `Lost` is performed at the 16-bit
width of the field, so it wraps modulo 2^16: for every accepted frame (with
decoder field ranges), `Lost` equals declared length minus header size plus
payload length taken modulo 65536, with no anomaly flag. -/
theorem lost_is_mod_65536_subtraction
    (now : Nat) (packet : GoPacket) (nl : NetworkLayer) (t : TCPLayer)
    (hn : classifyNet packet.networkLayer = some nl)
    (ht : classifyTcp packet.transportLayer = some t)
    (hd : t.DataOffset < 16) (hwf : nlWF nl) :
    (ParsePacket now packet).1.Lost =
      (specDeclaredLength nl + 65536 -
        (specHeaderSize nl (4 * t.DataOffset) + t.Payload.length) % 65536) % 65536 := by
  show (parseBody now packet).Lost = _
  rw [parseBody_accept now packet nl t hn ht]
  cases nl with
  | ipv4 l =>
    obtain ⟨h1, h2⟩ := hwf
    simp only [nlLength, headerSizeVal, specHeaderSize, specDeclaredLength]
    omega
  | ipv6 l =>
    simp only [nlLength, headerSizeVal, specHeaderSize, specDeclaredLength, nlWF] at hwf ⊢
    omega
  | other => exact absurd hn (classifyNet_not_other _)

/-- C2 amended witness: on the underflow frame the mod-2^16 formula gives
the wrapped value 65491. -/
theorem lost_is_mod_65536_subtraction_witness :
    (ParsePacket 1 underflowFrame).1.Lost = (10 + 65536 - 55 % 65536) % 65536 := by
  have h := lost_is_mod_65536_subtraction 1 underflowFrame
    (NetworkLayer.ipv4
      { SrcIP := [192, 168, 0, 1], DstIP := [10, 0, 0, 1], IHL := 5, Length := 10 })
    exTcp rfl rfl (by decide) ⟨by decide, by decide⟩
  rw [h]
  rfl

/-- C3: for every accepted frame, the stored `DataOffset` of the record is
4 times the word count the decoder reported (a 4-bit field, hence below
16), and in particular a multiple of 4. -/
theorem dataoffset_is_four_times_words
    (now : Nat) (packet : GoPacket) (nl : NetworkLayer) (t : TCPLayer)
    (hn : classifyNet packet.networkLayer = some nl)
    (ht : classifyTcp packet.transportLayer = some t)
    (hd : t.DataOffset < 16) :
    ∃ u, (ParsePacket now packet).1.TCP = some u ∧
      u.DataOffset = 4 * t.DataOffset ∧ 4 ∣ u.DataOffset := by
  refine ⟨{ t with DataOffset := t.DataOffset % 256 * 4 % 256 }, ?_, ?_, ?_⟩
  · show (parseBody now packet).TCP = _
    rw [parseBody_accept now packet nl t hn ht]
  · show t.DataOffset % 256 * 4 % 256 = 4 * t.DataOffset
    omega
  · show 4 ∣ t.DataOffset % 256 * 4 % 256
    omega

/-- C3 witness: the spec frame (data offset 5 words) yields a record whose
stored data offset is 20. -/
theorem dataoffset_is_four_times_words_witness :
    ∃ u, (ParsePacket 1 exFrame).1.TCP = some u ∧
      u.DataOffset = 4 * 5 ∧ 4 ∣ u.DataOffset := by
  exact dataoffset_is_four_times_words 1 exFrame
    (NetworkLayer.ipv4
      { SrcIP := [192, 168, 0, 1], DstIP := [10, 0, 0, 1], IHL := 5, Length := 60 })
    exTcp rfl rfl (by decide)

/-- C4 counterexample: a frame whose network layer is IPv4 but whose
transport layer is not TCP makes `ParsePacket` return, with no error, a
record whose network layer is present while its TCP layer is absent: a
partially-filled record in which the two layers are not mutually present. -/
theorem skip_record_partially_filled_counterexample :
    (ParsePacket 1 udpFrame).2 = none ∧
    (ParsePacket 1 udpFrame).1.NetworkLayer ≠ none ∧
    (ParsePacket 1 udpFrame).1.TCP = none := by
  refine ⟨rfl, ?_, rfl⟩
  decide

/-- C4 amended: for every frame with no decoder error whose network layer
does not resolve to IPv4/IPv6 or whose transport layer does not resolve to
TCP, `ParsePacket` returns no error, and the record it returns has no TCP
layer; the record may still be partially filled (in particular it carries
the resolved network layer when only the transport check failed). -/
theorem skip_returns_no_error_and_no_tcp (now : Nat) (packet : GoPacket)
    (he : packet.errorLayer = none)
    (h : classifyNet packet.networkLayer = none ∨
         classifyTcp packet.transportLayer = none) :
    (ParsePacket now packet).2 = none ∧ (ParsePacket now packet).1.TCP = none := by
  constructor
  · show deferredErr packet = none
    simp [deferredErr, he]
  · show (parseBody now packet).TCP = none
    unfold parseBody
    rcases h with h | h
    · simp [h]
    · cases hn : classifyNet packet.networkLayer with
      | none => simp [hn]
      | some nl => simp [hn, h]

/-- C4 amended witness: the IPv4-over-non-TCP frame yields no error and a
record without a TCP layer. -/
theorem skip_returns_no_error_and_no_tcp_witness :
    (ParsePacket 1 udpFrame).2 = none ∧ (ParsePacket 1 udpFrame).1.TCP = none :=
  skip_returns_no_error_and_no_tcp 1 udpFrame rfl (Or.inr rfl)

/-- C5 counterexample: on a frame carrying a decode-failure error layer
together with fully resolvable IPv4 and TCP layers, `ParsePacket` returns
the error, yet the record returned alongside it has been fully processed
(its TCP layer is populated and `Lost` computed), so the failure is not
propagated before further processing and a record is returned with the
error. -/
theorem error_alongside_processed_record_counterexample :
    (ParsePacket 1 errorFrame).2 = some "decode failure" ∧
    (ParsePacket 1 errorFrame).1.TCP ≠ none ∧
    (ParsePacket 1 errorFrame).1.Lost = 5 := by
  refine ⟨rfl, ?_, rfl⟩
  decide

/-- C5 amended: a structural decode failure reported by the Layer Decoder
is propagated as the error result of `ParsePacket`, but only through a
deferred check that runs at return, after the layers have been processed;
the record built by that processing is returned alongside the error. -/
theorem decode_error_propagates (now : Nat) (packet : GoPacket) (e : ErrLayer)
    (he : packet.errorLayer = some e) :
    (ParsePacket now packet).2 = some e.msg ∧
    (ParsePacket now packet).1 = parseBody now packet := by
  constructor
  · show deferredErr packet = some e.msg
    simp [deferredErr, he]
  · rfl

/-- C5 amended witness: the decode-failure frame yields the decoder error
together with the processed record. -/
theorem decode_error_propagates_witness :
    (ParsePacket 1 errorFrame).2 = some "decode failure" ∧
    (ParsePacket 1 errorFrame).1 = parseBody 1 errorFrame :=
  decode_error_propagates 1 errorFrame
    { isDecodeFailure := true, msg := "decode failure" } rfl

/-- C6 helper: `Flag` on a TCP layer is the comma-separated join of the
names of the set flags in the fixed order. -/
lemma flag_eq_intercalate (t : TCPLayer) :
    t.Flag = String.intercalate ", " (specFlagList t) := by
  rcases t with ⟨sp, dp, sq, ak, dof, w, fin, syn, rst, psh, ack, urg, opts, pl⟩
  cases fin <;> cases syn <;> cases rst <;> cases psh <;> cases ack <;> cases urg <;> rfl

/-- C6: for every record, `Flag` returns the comma-separated list of
exactly the set TCP flags in the fixed order FIN, SYN, RST, PSH, ACK, URG,
with no trailing separator and the empty string when no flag is set. -/
theorem flag_lists_set_flags_in_order (p : Packet) (t : TCPLayer)
    (h : p.TCP = some t) :
    p.Flag = some (String.intercalate ", " (specFlagList t)) := by
  simp [Packet.Flag, h, flag_eq_intercalate]

/-- C6 witness: the record of the spec frame, whose TCP layer has only SYN
and ACK set, yields exactly the string with SYN and ACK in order. -/
theorem flag_lists_set_flags_in_order_witness :
    exRecord.Flag = some "SYN, ACK" := by
  have h := flag_lists_set_flags_in_order exRecord
    { exTcp with DataOffset := 20 } rfl
  rw [h]
  rfl

/-- C7: for every record whose SYN flag is not set, `SYNOptions` returns
zero MSS and zero window scale, regardless of the option list, and does
not fail. -/
theorem synoptions_zero_when_not_syn (p : Packet) (t : TCPLayer)
    (h : p.TCP = some t) (hsyn : t.SYN = false) :
    p.SYNOptions = some (0, 0) := by
  simp [Packet.SYNOptions, h, TCPLayer.SYNOptions, hsyn]

/-- C7 witness: a non-SYN record carrying MSS and Window-Scale options
still yields zero MSS and zero window scale. -/
theorem synoptions_zero_when_not_syn_witness :
    (recordWith nonSynTcp).SYNOptions = some (0, 0) :=
  synoptions_zero_when_not_syn (recordWith nonSynTcp) nonSynTcp rfl rfl

/-- C9: a SYN record whose option list holds an MSS option with declared
length 2 and no data bytes reaches `binary.BigEndian.Uint16` on a slice
shorter than 2 bytes: the scan has no defined result (the Go code panics
with an index-out-of-range runtime error). -/
theorem synoptions_short_mss_has_no_result :
    (recordWith shortMssTcp).SYNOptions = none := rfl

/-- C8 helper: on a well-formed option list the scan never hits a panic
and computes, for each of the two recognised option kinds, the value of
the last matching option (with the accumulator as default). -/
lemma foldl_synStep_eq (opts : List TCPOption) (m w : Nat) (hwf : optionsWF opts) :
    opts.foldl synStep (some (m, w)) =
      some (lastD mssVal (opts.filter isMSSOpt) m,
            lastD wsVal (opts.filter isWSOpt) w) := by
  induction opts generalizing m w with
  | nil => simp [lastD]
  | cons v rest ih =>
    have hv := hwf v (List.mem_cons_self v rest)
    have hrest : optionsWF rest := fun u hu => hwf u (List.mem_cons_of_mem _ hu)
    rw [List.foldl_cons]
    by_cases hm : v.OptionType = TCPOptionKindMSS
    · obtain ⟨b0, b1, bs, hdata⟩ : ∃ b0 b1 bs, v.OptionData = b0 :: b1 :: bs := by
        have h2 := hv.1 hm
        cases hd2 : v.OptionData with
        | nil => rw [hd2] at h2; simp at h2
        | cons a as =>
          cases as with
          | nil => rw [hd2] at h2; simp at h2
          | cons b bs => exact ⟨a, b, bs, rfl⟩
      have hstep : synStep (some (m, w)) v = some (mssVal v, w) := by
        simp [synStep, hm, hdata, mssVal, be16]
      have hfm : isMSSOpt v = true := by simp [isMSSOpt, hm]
      have hfw : isWSOpt v = false := by
        simp [isWSOpt, hm, TCPOptionKindMSS, TCPOptionKindWindowScale]
      rw [hstep, ih _ _ hrest]
      simp [List.filter_cons, hfm, hfw, lastD]
    · by_cases hws : v.OptionType = TCPOptionKindWindowScale
      · have hfm : isMSSOpt v = false := by
          simp [isMSSOpt, hws, TCPOptionKindMSS, TCPOptionKindWindowScale]
        by_cases hlen : v.OptionLength % 256 = 0
        · have hstep : synStep (some (m, w)) v = some (m, w) := by
            simp [synStep, hm, hws, hlen, TCPOptionKindMSS, TCPOptionKindWindowScale]
          have hfw : isWSOpt v = false := by simp [isWSOpt, hlen]
          rw [hstep, ih _ _ hrest]
          simp [List.filter_cons, hfm, hfw]
        · obtain ⟨b, bs, hdata⟩ : ∃ b bs, v.OptionData = b :: bs := by
            have hne := hv.2 hws hlen
            cases hd2 : v.OptionData with
            | nil => exact absurd hd2 hne
            | cons a as => exact ⟨a, as, rfl⟩
          have hstep : synStep (some (m, w)) v = some (m, wsVal v) := by
            simp [synStep, hm, hws, hlen, hdata, wsVal, Nat.one_shiftLeft,
              Nat.pos_of_ne_zero hlen, TCPOptionKindMSS, TCPOptionKindWindowScale]
          have hfw : isWSOpt v = true := by simp [isWSOpt, hws, hlen]
          rw [hstep, ih _ _ hrest]
          simp [List.filter_cons, hfm, hfw, lastD]
      · have hstep : synStep (some (m, w)) v = some (m, w) := by
          simp [synStep, hm, hws]
        have hfm : isMSSOpt v = false := by simp [isMSSOpt, hm]
        have hfw : isWSOpt v = false := by simp [isWSOpt, hws]
        rw [hstep, ih _ _ hrest]
        simp [List.filter_cons, hfm, hfw]

/-- C8 counterexample: on a SYN record whose only option is a Window-Scale
option with data byte 16, the code computes `1 << 16` at type `uint16` and
stores window scale 0, not the claimed `2 ^ 16`. -/
theorem windowscale_sixteen_counterexample :
    (recordWith ws16Tcp).SYNOptions = some (0, 0) ∧ (0 : Nat) ≠ 2 ^ 16 := by
  exact ⟨rfl, by decide⟩

/-- C8 amended: for every SYN record whose option list is well formed for
the scan (MSS data carries the two bytes read, Window-Scale data carries
the byte read), `SYNOptions` scans the list once and returns the
big-endian 16-bit value of the last MSS option and two to the power of the
single data byte of the last Window-Scale option with nonzero declared
length, reduced modulo 2^16 (the width of the stored field); later
occurrences overwrite earlier ones and all other option kinds are
ignored. -/
theorem synoptions_last_wins (p : Packet) (t : TCPLayer)
    (h : p.TCP = some t) (hsyn : t.SYN = true) (hwf : optionsWF t.Options) :
    p.SYNOptions = some (specLastMSS t.Options, specLastWS t.Options) := by
  simp only [Packet.SYNOptions, h, Option.some_bind, TCPLayer.SYNOptions, hsyn,
    Bool.not_true, Bool.false_eq_true, if_false, specLastMSS, specLastWS]
  exact foldl_synStep_eq t.Options 0 0 hwf

/-- C8 amended witness: a SYN record carrying an MSS option with bytes
`0x05 0xB4` and a Window-Scale option with data byte 7 yields MSS 1460 and
window scale 128. -/
theorem synoptions_last_wins_witness :
    (recordWith exSynTcp).SYNOptions = some (1460, 128) := by
  have h := synoptions_last_wins (recordWith exSynTcp) exSynTcp rfl rfl (by decide)
  rw [h]
  rfl

/-- C10: for every `Packet` value, `Version` returns 4 exactly when the
stored network layer is an IPv4 layer, and returns 6 exactly otherwise
(including a nil network layer and non-IP shapes), so it never returns
any other value. -/
theorem version_four_iff_ipv4 (p : Packet) :
    (p.Version = 4 ↔ ∃ l, p.NetworkLayer = some (NetworkLayer.ipv4 l)) ∧
    (p.Version = 6 ↔ ¬∃ l, p.NetworkLayer = some (NetworkLayer.ipv4 l)) := by
  rcases p with ⟨link, nl, tcp, dl, lost, ts⟩
  cases nl with
  | none => simp [Packet.Version]
  | some m => cases m <;> simp [Packet.Version]

end GoTcp
